import Mathlib

/-!
Verification of the Wb-review feedback synchronization and reply-decision
pipeline.  The definitions below are a shallow embedding of the Python
source (src/app/db.py, src/app/ai.py, src/main.py): the SQLite tables
become lists of records, `CURRENT_TIMESTAMP` becomes an explicit `now`
argument, and fallible calls (template formatting, text generation,
marketplace dispatch) return `Except`.

Timestamp TEXT columns (which SQLite orders lexicographically, matching
chronological order for ISO strings) are abstracted as `Option Int`
stamps, with `none` standing for SQL NULL.
-/

namespace WbReview

/-- A nullable timestamp column: `none` is SQL NULL. -/
abbrev Stamp := Option Int

/-- One row of the `feedbacks` table (src/app/db.py, `CREATE TABLE feedbacks`).
Columns not listed in the INSERT default to NULL (`none`). -/
structure Feedback where
  id : Nat
  marketplace_id : Nat
  external_id : String
  created_at : Stamp
  rating : Option Int
  text : Option String
  pros : Option String
  cons : Option String
  product_name : Option String
  product_nm_id : Option Int
  status : String
  raw_json : Option String
  ai_response : Option String
  ai_model : Option String
  ai_prompt : Option String
  ai_created_at : Option Int
  sent_response : Option String
  sent_raw : Option String
  sent_at : Option Int
  last_seen_at : Int
  deriving Repr, DecidableEq

/-- The value of a characteristic entry as parsed from the product's
`characteristics` JSON column: a scalar string, a list of scalars, or null.
(`json.loads` is modelled by storing the parsed form.) -/
inductive CharValue where
  | null
  | str (s : String)
  | listv (vs : List (Option String))
  deriving Repr, DecidableEq

/-- One `{"name": ..., "value": ...}` entry of a product's characteristics. -/
structure CharItem where
  name : Option String
  value : CharValue
  deriving Repr, DecidableEq

/-- One row of the `products` table.  `characteristics` holds the parsed JSON
array; `none` models NULL, an empty string, or unparseable JSON (all of
which `_format_product_benefits` treats alike, returning ""). -/
structure Product where
  id : Nat
  marketplace_id : Nat
  external_id : String
  name : Option String
  description : Option String
  characteristics : Option (List CharItem)
  deriving Repr, DecidableEq

/-- One row of the `rag_examples` table (grounding examples). -/
structure RagExample where
  id : Nat
  external_id : String
  feedback_created_at : Stamp
  rating : Option Int
  text : Option String
  pros : Option String
  cons : Option String
  product_name : Option String
  answer_text : String
  deriving Repr, DecidableEq

/-- A template part: literal text or a named `\x7bkey\x7d` placeholder.
Models a Python format template in parsed form. -/
inductive TemplatePart where
  | lit (s : String)
  | hole (key : String)
  deriving Repr, DecidableEq

/-- The persistent store: the tables touched by the core pipeline, the
`prompt_template` settings row, and the AUTOINCREMENT counter for
`feedbacks.id`. -/
structure DB where
  feedbacks : List Feedback
  products : List Product
  rag_examples : List RagExample
  prompt_setting : Option (List TemplatePart)
  next_feedback_id : Nat
  deriving Repr, DecidableEq

/-- The `data` dict passed to `insert_or_touch_feedback` by
`upsert_feedbacks` (src/main.py). -/
structure FeedbackData where
  marketplace_id : Nat
  external_id : String
  created_at : Stamp
  rating : Option Int
  text : Option String
  pros : Option String
  cons : Option String
  product_name : Option String
  product_nm_id : Option Int
  status : String
  raw_json : Option String
  deriving Repr, DecidableEq

/-- The `(marketplace_id, external_id)` UNIQUE-key test used by the
ON CONFLICT clause and the follow-up SELECT. -/
def feedbackKeyMatches (mid : Nat) (eid : String) (r : Feedback) : Bool :=
  r.marketplace_id == mid && r.external_id == eid

/-- The row created by the INSERT arm of `insert_or_touch_feedback`:
content fields from `data`, every other column at its default,
`last_seen_at = CURRENT_TIMESTAMP`.  `raw_json` stores
`json.dumps(data.get("raw_json") or \x7b\x7d)`, modelled as the given blob or
the serialized empty object. -/
def freshRow (rid : Nat) (now : Int) (d : FeedbackData) : Feedback :=
  { id := rid
    marketplace_id := d.marketplace_id
    external_id := d.external_id
    created_at := d.created_at
    rating := d.rating
    text := d.text
    pros := d.pros
    cons := d.cons
    product_name := d.product_name
    product_nm_id := d.product_nm_id
    status := d.status
    raw_json := some (d.raw_json.getD "\x7b\x7d")
    ai_response := none
    ai_model := none
    ai_prompt := none
    ai_created_at := none
    sent_response := none
    sent_raw := none
    sent_at := none
    last_seen_at := now }

/-- The DO UPDATE arm of the upsert: refresh `last_seen_at` only. -/
def touchRow (now : Int) (r : Feedback) : Feedback := { r with last_seen_at := now }

/-- `insert_or_touch_feedback` (src/app/db.py:202): INSERT the item;
ON CONFLICT(marketplace_id, external_id) update only
`last_seen_at = CURRENT_TIMESTAMP`.  Returns the row re-read by the
follow-up SELECT (`none` models the "Failed to load feedback after
insert" RuntimeError, which cannot occur). -/
def insert_or_touch_feedback (db : DB) (now : Int) (d : FeedbackData) :
    DB × Option Feedback :=
  let key := feedbackKeyMatches d.marketplace_id d.external_id
  let conflict := db.feedbacks.any key
  let fbs :=
    if conflict then
      db.feedbacks.map fun r => if key r then touchRow now r else r
    else
      db.feedbacks ++ [freshRow db.next_feedback_id now d]
  let db' := { db with
    feedbacks := fbs
    next_feedback_id := if conflict then db.next_feedback_id else db.next_feedback_id + 1 }
  (db', fbs.find? key)

/-- `update_ai_response` (src/app/db.py:252): a plain UPDATE of the row with
the given id, setting the draft fields and `status = 'ai_generated'`.
If no row has the id, the UPDATE matches nothing and the call returns
normally. -/
def update_ai_response (db : DB) (now : Int) (feedback_id : Nat)
    (response model prompt : String) : DB :=
  { db with feedbacks := db.feedbacks.map fun r =>
      if r.id == feedback_id then
        { r with
          ai_response := some response
          ai_model := some model
          ai_prompt := some prompt
          ai_created_at := some now
          status := "ai_generated" }
      else r }

/-- `mark_skipped` (src/app/db.py:271): `UPDATE feedbacks SET status = ?
WHERE id = ?` — unconditionally overwrites the status of the addressed
row; a missing id matches nothing. -/
def mark_skipped (db : DB) (feedback_id : Nat) (status : String) : DB :=
  { db with feedbacks := db.feedbacks.map fun r =>
      if r.id == feedback_id then { r with status := status } else r }

/-- `mark_sent` (src/app/db.py:486): sets `status = 'sent'`, the sent text,
the serialized ack payload and `sent_at = CURRENT_TIMESTAMP` on the
addressed row. -/
def mark_sent (db : DB) (now : Int) (feedback_id : Nat)
    (response_text : String) (raw_payload : String) : DB :=
  { db with feedbacks := db.feedbacks.map fun r =>
      if r.id == feedback_id then
        { r with
          status := "sent"
          sent_response := some response_text
          sent_raw := some raw_payload
          sent_at := some now }
      else r }

/-! ### Ordering machinery for the SQL ORDER BY clauses -/

/-- Descending lexicographic comparison of equal-purpose integer key lists:
`listGe x y` holds when `x` sorts at or before `y` under an `ORDER BY`
that reads the components left to right, each DESC. -/
def listGe : List Int → List Int → Bool
  | _, [] => true
  | [], _ :: _ => false
  | a :: as, b :: bs => if a = b then listGe as bs else decide (b < a)

theorem listGe_total : ∀ x y : List Int, listGe x y = true ∨ listGe y x = true
  | [], [] => Or.inl rfl
  | [], _ :: _ => Or.inr rfl
  | _ :: _, [] => Or.inl rfl
  | a :: as, b :: bs => by
    by_cases hab : a = b
    · subst hab
      simpa [listGe] using listGe_total as bs
    · rcases lt_or_gt_of_ne hab with h | h
      · right; simp [listGe, Ne.symm hab, h]
      · left; simp [listGe, hab, h]

theorem listGe_nil (x : List Int) : listGe x [] = true := by
  cases x <;> rfl

theorem listGe_trans : ∀ x y z : List Int,
    listGe x y = true → listGe y z = true → listGe x z = true
  | x, _, [], _, _ => listGe_nil x
  | [], b :: bs, _ :: _, h₁, _ => by simp [listGe] at h₁
  | [], [], _ :: _, _, h₂ => by simp [listGe] at h₂
  | a :: as, [], c :: cs, h₁, h₂ => by simp [listGe] at h₂
  | a :: as, b :: bs, c :: cs, h₁, h₂ => by
    by_cases hab : a = b <;> by_cases hbc : b = c
    · subst hab; subst hbc
      simp only [listGe, if_pos rfl] at h₁ h₂ ⊢
      exact listGe_trans as bs cs h₁ h₂
    · subst hab
      simp only [listGe, if_pos rfl] at h₁
      simp only [listGe, if_neg hbc, decide_eq_true_eq] at h₂
      simp [listGe, hbc, h₂]
    · subst hbc
      simp only [listGe, if_neg hab, decide_eq_true_eq] at h₁
      simp [listGe, hab, h₁]
    · simp only [listGe, if_neg hab, decide_eq_true_eq] at h₁
      simp only [listGe, if_neg hbc, decide_eq_true_eq] at h₂
      have hac : c < a := lt_trans h₂ h₁
      have : a ≠ c := by omega
      simp [listGe, this, hac]

/-- Encode a Bool as the 0/1 an SQL CASE WHEN expression produces. -/
def b2i (b : Bool) : Int := if b then 1 else 0

/-- `product_name = ?` under SQL three-valued logic: NULL never matches. -/
def nameMatch (q : String) (e : RagExample) : Bool :=
  match e.product_name with
  | some s => s == q
  | none => false

/-- `rating = ?` under SQL three-valued logic: NULL on either side never
matches. -/
def ratingMatch (q : Option Int) (e : RagExample) : Bool :=
  match q, e.rating with
  | some a, some b => a == b
  | _, _ => false

/-- The ORDER BY key of `get_rag_examples`, read left to right, each
component DESC: product-name match, rating match, feedback creation time
(NULL sorts last under DESC, encoded by the isSome flag), row id. -/
def rankKey (q : String) (qr : Option Int) (e : RagExample) : List Int :=
  [b2i (nameMatch q e), b2i (ratingMatch qr e),
   b2i e.feedback_created_at.isSome, e.feedback_created_at.getD 0,
   Int.ofNat e.id]

/-- `a` sorts at or before `b` in the `get_rag_examples` ORDER BY. -/
def rankGe (q : String) (qr : Option Int) (a b : RagExample) : Prop :=
  listGe (rankKey q qr a) (rankKey q qr b) = true

instance (q : String) (qr : Option Int) : DecidableRel (rankGe q qr) :=
  fun a b => decidable_of_iff (listGe (rankKey q qr a) (rankKey q qr b) = true) Iff.rfl

instance (q : String) (qr : Option Int) : IsTotal RagExample (rankGe q qr) :=
  ⟨fun a b => listGe_total (rankKey q qr a) (rankKey q qr b)⟩

instance (q : String) (qr : Option Int) : IsTrans RagExample (rankGe q qr) :=
  ⟨fun a b c => listGe_trans (rankKey q qr a) (rankKey q qr b) (rankKey q qr c)⟩

/-- `get_rag_examples` (src/app/db.py:705): all rag examples ordered by the
three-key priority (then id DESC), truncated to `limit`. -/
def get_rag_examples (db : DB) (product_name : String) (rating : Option Int)
    (limit : Nat) : List RagExample :=
  (List.insertionSort (rankGe product_name rating) db.rag_examples).take limit

/-- Ascending comparison of nullable stamps: SQLite `ORDER BY ... ASC`
sorts NULL first. -/
def stampLe : Stamp → Stamp → Bool
  | none, _ => true
  | some _, none => false
  | some a, some b => a ≤ b

/-- `ORDER BY created_at ASC` on feedback rows. -/
def createdAsc (a b : Feedback) : Prop := stampLe a.created_at b.created_at = true

instance : DecidableRel createdAsc :=
  fun a b => decidable_of_iff (stampLe a.created_at b.created_at = true) Iff.rfl

theorem stampLe_total : ∀ a b : Stamp, stampLe a b = true ∨ stampLe b a = true
  | none, _ => Or.inl rfl
  | some _, none => Or.inr rfl
  | some a, some b => by
    simpa [stampLe, decide_eq_true_eq] using le_total a b

theorem stampLe_trans : ∀ a b c : Stamp,
    stampLe a b = true → stampLe b c = true → stampLe a c = true
  | none, _, _, _, _ => rfl
  | some _, none, _, h₁, _ => by simp [stampLe] at h₁
  | some _, some _, none, _, h₂ => by simp [stampLe] at h₂
  | some a, some b, some c, h₁, h₂ => by
    simp only [stampLe, decide_eq_true_eq] at h₁ h₂ ⊢
    exact le_trans h₁ h₂

instance : IsTotal Feedback createdAsc :=
  ⟨fun a b => stampLe_total a.created_at b.created_at⟩

instance : IsTrans Feedback createdAsc :=
  ⟨fun a b c => stampLe_trans a.created_at b.created_at c.created_at⟩

/-- `get_new_feedbacks` (src/app/db.py:279): rows of the account's
marketplace in status 'new', ordered by created_at ascending. -/
def get_new_feedbacks (db : DB) (marketplace_id : Nat) : List Feedback :=
  List.insertionSort createdAsc
    (db.feedbacks.filter fun r =>
      r.marketplace_id == marketplace_id && r.status == "new")

/-! ### src/app/ai.py — prompt building -/

/-- Join strings with newlines, as Python's `"\n".join`. -/
def joinLines : List String → String
  | [] => ""
  | [s] => s
  | s :: r :: rest => s ++ "\n" ++ joinLines (r :: rest)

/-- Python `str.lstrip()`. -/
def lstrip (s : String) : String := String.mk (s.data.dropWhile Char.isWhitespace)

/-- Does the first list start with the second? -/
def listStarts : List Char → List Char → Bool
  | _, [] => true
  | [], _ :: _ => false
  | a :: as, b :: bs => a == b && listStarts as bs

/-- Python `str.startswith`. -/
def strStarts (s pat : String) : Bool := listStarts s.data pat.data

/-- Python string slicing `s[n:]` by characters. -/
def strDrop (s : String) (n : Nat) : String := String.mk (s.data.drop n)

/-- Python `value or ""` on a nullable string. -/
def orEmpty (o : Option String) : String := o.getD ""

/-- Python `value or ""` on a nullable integer, then `str(...)` under
formatting: None and 0 render empty, other ints render as decimal. -/
def intStr : Option Int → String
  | none => ""
  | some n => if n = 0 then "" else toString n

/-- The review line of one rendered example
(`_render_examples`, src/app/ai.py:32). -/
def reviewLine (idx : Nat) (e : RagExample) : String :=
  toString idx ++ ") Отзыв: " ++ orEmpty e.text ++ " Плюсы: " ++ orEmpty e.pros ++
    " Минусы: " ++ orEmpty e.cons ++ " Оценка: " ++ intStr e.rating ++
    " Товар: " ++ orEmpty e.product_name

/-- The answer of one rendered example: if the answer text starts (after
left-stripping) with "Ответ", that word is removed and the rest is
left-stripped again; otherwise the answer is kept verbatim. -/
def exampleAnswer (e : RagExample) : String :=
  let answer := e.answer_text
  let cleaned := lstrip answer
  if strStarts cleaned "Ответ" then lstrip (strDrop cleaned ("Ответ".length))
  else answer

/-- The two lines emitted per example, with 1-based indices
(Python `enumerate(items, 1)`). -/
def exampleLines : Nat → List RagExample → List String
  | _, [] => []
  | idx, e :: rest =>
    reviewLine idx e :: ("Ответ: " ++ exampleAnswer e) :: exampleLines (idx + 1) rest

/-- `_render_examples` (src/app/ai.py:15): empty input renders as the empty
string, otherwise a header line followed by two lines per example. -/
def renderExamples (examples : List RagExample) : String :=
  match examples with
  | [] => ""
  | _ :: _ =>
    joinLines ("Примеры ответов (для стиля, не копировать дословно):" ::
      exampleLines 1 examples)

/-- First-match lookup in a string-keyed association list (a Python dict
restricted to the keys it holds). -/
def lookupKey (m : List (String × String)) (k : String) : Option String :=
  (m.find? fun p => p.1 == k).map (·.2)

/-- Python `template.format(**mapping)` over a parsed template: literal parts
pass through, a `\x7bkey\x7d` hole is replaced by the mapping's value, and a
hole whose key is absent raises KeyError (modelled as `Except.error key`). -/
def pyFormat : List TemplatePart → List (String × String) → Except String String
  | [], _ => .ok ""
  | .lit s :: rest, m => (pyFormat rest m).map (fun t => s ++ t)
  | .hole k :: rest, m =>
    match lookupKey m k with
    | some v => (pyFormat rest m).map (fun t => v ++ t)
    | none => .error k

/-- `build_prompt` (src/app/ai.py:38): replace None payload values by the
empty string, format the template (KeyError propagates), and append the
rendered examples block when it is non-empty. -/
def build_prompt (template : List TemplatePart) (data : List (String × Option String))
    (examples : List RagExample) : Except String String :=
  let safe := data.map fun p => (p.1, p.2.getD "")
  match pyFormat template safe with
  | .error k => .error k
  | .ok prompt =>
    let examples_block := renderExamples examples
    .ok (if examples_block = "" then prompt else prompt ++ "\n\n" ++ examples_block)

/-- The placeholder keys of a template, in order. -/
def holes : List TemplatePart → List String
  | [] => []
  | .lit _ :: rest => holes rest
  | .hole k :: rest => k :: holes rest

/-! ### src/main.py — reply policy and the per-account AI pass -/

/-- The `rating` argument of `_reply_mode` as Python sees it: `None`, a value
`int()` converts to `n` (ints, numeric strings, floats truncated), or a
value on which `int()` raises. -/
inductive Rating where
  | null
  | num (n : Int)
  | nonNumeric
  deriving Repr, DecidableEq

/-- `_reply_mode` (src/main.py:59). -/
def reply_mode : Rating → String
  | .null => "skip"
  | .nonNumeric => "skip"
  | .num n => if n ≥ 4 then "auto_send" else if n ≥ 1 then "manual_confirm" else "skip"

/-- A rating read back from the INTEGER column is `None` or an int. -/
def Rating.ofDb : Option Int → Rating
  | none => .null
  | some n => .num n

/-- `get_product_by_marketplace_external_id` (src/app/db.py:596): None id
short-circuits, otherwise an exact `(marketplace_id, str(external_id))`
lookup. -/
def get_product_by_marketplace_external_id (db : DB) (marketplace_id : Nat)
    (external_id : Option Int) : Option Product :=
  match external_id with
  | none => none
  | some e =>
    db.products.find? fun p =>
      p.marketplace_id == marketplace_id && p.external_id == toString e

/-- `get_product_by_marketplace_name` (src/app/db.py:613): a falsy name
(None or "") short-circuits, otherwise an exact name lookup (a NULL
`name` column never matches). -/
def get_product_by_marketplace_name (db : DB) (marketplace_id : Nat)
    (name : Option String) : Option Product :=
  match name with
  | none => none
  | some n =>
    if n = "" then none
    else db.products.find? fun p =>
      p.marketplace_id == marketplace_id && p.name == some n

/-- `_get_product_context` (src/main.py:239): external-id lookup first,
name lookup as fallback. -/
def get_product_context (db : DB) (marketplace_id : Nat)
    (product_nm_id : Option Int) (product_name : Option String) : Option Product :=
  match get_product_by_marketplace_external_id db marketplace_id product_nm_id with
  | some p => some p
  | none => get_product_by_marketplace_name db marketplace_id product_name

/-- The string rendered for one characteristic's `value`: lists are joined
with ", " over their non-None members; null renders empty. -/
def charValueStr : CharValue → String
  | .null => ""
  | .str s => s
  | .listv vs => String.intercalate ", " (vs.filterMap id)

/-- `_format_product_benefits` (src/main.py:250): newline-joined
`"name: value"` lines over the parsed characteristics, skipping entries
where both sides are blank and omitting the colon when one side is blank.
Absent product, NULL/empty/unparseable characteristics give "". -/
def format_product_benefits (product_row : Option Product) : String :=
  match product_row with
  | none => ""
  | some p =>
    match p.characteristics with
    | none => ""
    | some items =>
      joinLines (items.filterMap fun item =>
        let name := (orEmpty item.name).trim
        let value := (charValueStr item.value).trim
        if name = "" && value = "" then none
        else if name ≠ "" && value ≠ "" then some (name ++ ": " ++ value)
        else if name ≠ "" then some name
        else some value)

/-- The prompt payload assembled in `process_ai` (src/main.py:110). -/
def mkPayload (db : DB) (marketplace_id : Nat) (label : String) (row : Feedback) :
    List (String × Option String) :=
  let product_row := get_product_context db marketplace_id row.product_nm_id row.product_name
  [("text", some (orEmpty row.text)),
   ("rating", some (intStr row.rating)),
   ("pros", some (orEmpty row.pros)),
   ("cons", some (orEmpty row.cons)),
   ("product_name", some (orEmpty row.product_name)),
   ("product_title", some (orEmpty (product_row.bind (·.name)))),
   ("product_description", some (orEmpty (product_row.bind (·.description)))),
   ("product_benefits", some (format_product_benefits product_row)),
   ("marketplace", some label)]

/-- The configuration and external capabilities `process_ai` consumes:
the OpenAI settings (`openai_api_key = none` models a falsy key), the
clock, the generation backend (`generate_response`), and the
marketplace dispatch capability (`client.send_response` or the injected
`send_response`), both of which may fail. -/
structure GenCtx where
  openai_api_key : Option String
  openai_model : String
  prompt_template : List TemplatePart
  now : Int
  gen : String → Except String String
  send : String → String → Except String String

/-- `ensure_prompt` (src/main.py:28): returns the configured default and
stores it unless already stored. -/
def ensure_prompt (db : DB) (default_prompt : List TemplatePart) :
    DB × List TemplatePart :=
  if db.prompt_setting = some default_prompt then (db, default_prompt)
  else ({ db with prompt_setting := some default_prompt }, default_prompt)

/-- The body of `process_ai`'s item loop (src/main.py:93-144) for one
snapshot row.  The outer `except` catches template KeyError and
generation failure, marking the row 'ai_error'; the inner `except`
around dispatch swallows send failures, leaving the drafted row
untouched. -/
def process_row (ctx : GenCtx) (tpl : List TemplatePart) (auto_reply_enabled : Bool)
    (label : String) (marketplace_id : Nat) (db : DB) (row : Feedback) : DB :=
  let mode := reply_mode (Rating.ofDb row.rating)
  if mode = "skip" then mark_skipped db row.id "manual_needed"
  else
    let mode := if mode = "auto_send" ∧ ¬auto_reply_enabled then "manual_confirm" else mode
    match ctx.openai_api_key with
    | none => mark_skipped db row.id "ai_skipped_no_key"
    | some _ =>
      let payload := mkPayload db marketplace_id label row
      let examples := get_rag_examples db (orEmpty row.product_name) row.rating 6
      match build_prompt tpl payload examples with
      | .error _ => mark_skipped db row.id "ai_error"
      | .ok prompt =>
        match ctx.gen prompt with
        | .error _ => mark_skipped db row.id "ai_error"
        | .ok answer =>
          let db1 := update_ai_response db ctx.now row.id answer ctx.openai_model prompt
          if mode = "auto_send" then
            match ctx.send row.external_id answer with
            | .ok ack => mark_sent db1 ctx.now row.id answer ack
            | .error _ => db1
          else db1

/-- `process_ai` (src/main.py:82): ensure the prompt template, snapshot the
'new' rows of the marketplace, and run the item loop over the snapshot,
threading the store through. -/
def process_ai (ctx : GenCtx) (marketplace_id : Nat) (auto_reply_enabled : Bool)
    (label : String) (db : DB) : DB :=
  let step := ensure_prompt db ctx.prompt_template
  let rows := get_new_feedbacks step.1 marketplace_id
  rows.foldl (process_row ctx step.2 auto_reply_enabled label marketplace_id) step.1

/-! ### src/main.py — the polling pass over accounts -/

/-- One marketplace account row as the polling loop sees it. -/
structure Account where
  id : Nat
  account_name : String
  deriving Repr, DecidableEq

/-- The account loop of `main` (src/main.py:289-298): each account's poll
runs inside `try/except`, so a failing account (second component
`some error`) still contributes its partial store effects and never
stops the remaining accounts.  Returns the final store and one outcome
per account. -/
def run_accounts (poll : Account → DB → DB × Option String) :
    List Account → DB → DB × List (Nat × Option String)
  | [], db => (db, [])
  | a :: rest, db =>
    let r := poll a db
    let tail := run_accounts poll rest r.1
    (tail.1, (a.id, r.2) :: tail.2)

/-- One full polling pass: all WB accounts, then all YM accounts. -/
def run_pass (pollWb pollYm : Account → DB → DB × Option String)
    (wb ym : List Account) (db : DB) : DB × List (Nat × Option String) :=
  let rw := run_accounts pollWb wb db
  let ry := run_accounts pollYm ym rw.1
  (ry.1, rw.2 ++ ry.2)

/-- `n` consecutive polling passes of the top-level `while True` loop. -/
def run_passes (pollWb pollYm : Account → DB → DB × Option String)
    (wb ym : List Account) : Nat → DB → DB × List (List (Nat × Option String))
  | 0, db => (db, [])
  | n + 1, db =>
    let p := run_pass pollWb pollYm wb ym db
    let rest := run_passes pollWb pollYm wb ym n p.1
    (rest.1, p.2 :: rest.2)

/-- A map whose function fixes every member of the list is the identity. -/
theorem map_self_of {α : Type} (l : List α) (f : α → α) (h : ∀ a ∈ l, f a = a) :
    l.map f = l := by
  rw [List.map_congr_left h]
  simp

/-! ### Concrete fixtures used by closed theorems and witnesses -/

/-- An empty store. -/
def dbEmpty : DB :=
  { feedbacks := [], products := [], rag_examples := [], prompt_setting := none,
    next_feedback_id := 1 }

/-- A feedback row in status `new` with the given id, rating, text and
creation stamp, on marketplace 1. -/
def newFb (i : Nat) (rating : Option Int) (t : String) (ca : Int) : Feedback :=
  { id := i, marketplace_id := 1, external_id := toString i, created_at := some ca,
    rating := rating, text := some t, pros := none, cons := none,
    product_name := some "P", product_nm_id := none, status := "new",
    raw_json := some "r", ai_response := none, ai_model := none, ai_prompt := none,
    ai_created_at := none, sent_response := none, sent_raw := none, sent_at := none,
    last_seen_at := 0 }

/-- Grounding example E1 of the spec's ranking test: product "X", rating 5,
creation time 10. -/
def exampleE1 : RagExample :=
  { id := 1, external_id := "e1", feedback_created_at := some 10, rating := some 5,
    text := some "tx1", pros := none, cons := none, product_name := some "X",
    answer_text := "a1" }

/-- Grounding example E2: product "X", rating 3, creation time 20. -/
def exampleE2 : RagExample :=
  { id := 2, external_id := "e2", feedback_created_at := some 20, rating := some 3,
    text := some "tx2", pros := none, cons := none, product_name := some "X",
    answer_text := "a2" }

/-- Grounding example E3: product "Y", rating 5, creation time 30. -/
def exampleE3 : RagExample :=
  { id := 3, external_id := "e3", feedback_created_at := some 30, rating := some 5,
    text := some "tx3", pros := none, cons := none, product_name := some "Y",
    answer_text := "a3" }

/-- A store holding the three ranking-test examples. -/
def ragDb : DB :=
  { dbEmpty with rag_examples := [exampleE1, exampleE2, exampleE3] }

/-- Three `new` items of one account, rating 3 (manual-confirm path),
in creation order. -/
def dbBatch3 : DB :=
  { dbEmpty with
    feedbacks := [newFb 1 (some 3) "t1" 1, newFb 2 (some 3) "t2" 2, newFb 3 (some 3) "t3" 3],
    next_feedback_id := 4 }

/-- One `new` item with rating 5 (auto-send path). -/
def dbOne : DB :=
  { dbEmpty with feedbacks := [newFb 1 (some 5) "t1" 1], next_feedback_id := 2 }

/-- A context whose generation backend fails exactly on the prompt built for
the second batch item, succeeding elsewhere. -/
def ctxGenFail : GenCtx :=
  { openai_api_key := some "k", openai_model := "m",
    prompt_template := [.lit "T: ", .hole "text"], now := 100,
    gen := fun p => if p = "T: t2" then .error "boom" else .ok "ANS",
    send := fun _ _ => .error "never called" }

/-- A context where generation succeeds and dispatch would succeed. -/
def ctxSendOk : GenCtx :=
  { openai_api_key := some "k", openai_model := "m",
    prompt_template := [.hole "text"], now := 100,
    gen := fun _ => .ok "ANS", send := fun _ _ => .ok "ACK" }

/-- A context where generation succeeds but dispatch fails. -/
def ctxSendFail : GenCtx :=
  { openai_api_key := some "k", openai_model := "m",
    prompt_template := [.hole "text"], now := 100,
    gen := fun _ => .ok "ANS", send := fun _ _ => .error "http 500" }

/-- A row already dispatched (status 'sent'). -/
def sentRow : Feedback := { newFb 1 (some 5) "t1" 1 with status := "sent" }

/-- A store holding only the dispatched row. -/
def dbSent : DB := { dbEmpty with feedbacks := [sentRow], next_feedback_id := 2 }

/-- First ingestion payload for the key (1, "x"). -/
def exampleData1 : FeedbackData :=
  { marketplace_id := 1, external_id := "x", created_at := some 1, rating := some 5,
    text := some "first text", pros := some "p1", cons := some "c1",
    product_name := some "P1", product_nm_id := some 7, status := "new",
    raw_json := some "raw1" }

/-- Second ingestion payload for the same key with different content. -/
def exampleData2 : FeedbackData :=
  { marketplace_id := 1, external_id := "x", created_at := some 2, rating := some 1,
    text := some "second text", pros := some "p2", cons := some "c2",
    product_name := some "P2", product_nm_id := some 8, status := "new",
    raw_json := some "raw2" }

/-- A re-ingestion payload whose key collides with `sentRow`. -/
def sentData : FeedbackData :=
  { marketplace_id := 1, external_id := "1", created_at := some 9, rating := some 2,
    text := some "again", pros := none, cons := none, product_name := some "P",
    product_nm_id := none, status := "new", raw_json := some "raw" }

/-- `db'` has no dispatched row that was not already dispatched in `db`:
every row of `db'` in status 'sent' has a row of `db` with the same id
already in status 'sent'. -/
def sentPreserved (db db' : DB) : Prop :=
  ∀ r' ∈ db'.feedbacks, r'.status = "sent" →
    ∃ r ∈ db.feedbacks, r.id = r'.id ∧ r.status = "sent"

/-- An account row for the polling-pass fixtures. -/
def acct (i : Nat) : Account := { id := i, account_name := toString i }

/-- The item account `i`'s poll ingests in the polling-pass fixture. -/
def boomData (i : Nat) : FeedbackData :=
  { marketplace_id := i, external_id := "f", created_at := none, rating := none,
    text := none, pros := none, cons := none, product_name := none,
    product_nm_id := none, status := "new", raw_json := none }

/-- A poll that upserts one item for its account and then fails on
account 2 — the partial store effect survives the failure, as a Python
exception after the DB write would leave it. -/
def pollBoom (a : Account) (db : DB) : DB × Option String :=
  ((insert_or_touch_feedback db 5 (boomData a.id)).1,
   if a.id = 2 then some "boom" else none)

/-! ### Theorems -/

/-- C3: the reply-mode decision (`_reply_mode`): None maps to skip, a
non-numeric rating maps to skip, 0 and every rating below 1 map to skip,
ratings 1..3 map to manual_confirm, every rating at least 4 maps to
auto_send. -/
theorem reply_mode_boundaries :
    reply_mode .null = "skip" ∧
    reply_mode .nonNumeric = "skip" ∧
    reply_mode (.num 0) = "skip" ∧
    (∀ n : Int, n < 1 → reply_mode (.num n) = "skip") ∧
    (∀ n : Int, 1 ≤ n → n ≤ 3 → reply_mode (.num n) = "manual_confirm") ∧
    (∀ n : Int, 4 ≤ n → reply_mode (.num n) = "auto_send") := by
  refine ⟨rfl, rfl, rfl, ?_, ?_, ?_⟩
  · intro n h
    simp only [reply_mode]
    rw [if_neg (by omega), if_neg (by omega)]
  · intro n h₁ h₂
    simp only [reply_mode]
    rw [if_neg (by omega), if_pos (by omega)]
  · intro n h
    simp only [reply_mode]
    rw [if_pos (by omega)]

/-- Witness for C3 at ratings 2, 5 and -1. -/
theorem reply_mode_boundaries_witness :
    reply_mode (.num 2) = "manual_confirm" ∧
    reply_mode (.num 5) = "auto_send" ∧
    reply_mode (.num (-1)) = "skip" :=
  ⟨reply_mode_boundaries.2.2.2.2.1 2 (by decide) (by decide),
   reply_mode_boundaries.2.2.2.2.2 5 (by decide),
   reply_mode_boundaries.2.2.2.1 (-1) (by decide)⟩

/-- C10: `mark_skipped` overwrites the status of the addressed row
unconditionally — in particular a row whose status is 'sent' (or any
other) moves to the given tag, so the write boundary does not enforce
terminality of 'sent' — and with an absent id it changes nothing and
does not fail. -/
theorem mark_skipped_overwrites :
    (∀ (db : DB) (fid : Nat) (tag : String) (r : Feedback),
      r ∈ db.feedbacks → r.id = fid →
      { r with status := tag } ∈ (mark_skipped db fid tag).feedbacks) ∧
    (∀ (db : DB) (fid : Nat) (tag : String),
      (∀ r ∈ db.feedbacks, r.id ≠ fid) →
      mark_skipped db fid tag = db) := by
  constructor
  · intro db fid tag r hr hid
    have : ({ r with status := tag } : Feedback)
        = (fun r => if r.id == fid then { r with status := tag } else r) r := by
      simp [hid]
    rw [this]
    exact List.mem_map_of_mem _ hr
  · intro db fid tag h
    have : db.feedbacks.map
        (fun r => if r.id == fid then { r with status := tag } else r) = db.feedbacks := by
      refine map_self_of _ _ ?_
      intro r hr
      rw [if_neg]
      simp [h r hr]
    unfold mark_skipped
    rw [this]

/-- Witness for C10: the 'sent' row of `dbSent` is moved to
'manual_needed', and `mark_skipped` with an absent id leaves the store
unchanged. -/
theorem mark_skipped_overwrites_witness :
    { sentRow with status := "manual_needed" }
      ∈ (mark_skipped dbSent 1 "manual_needed").feedbacks ∧
    mark_skipped dbOne 7 "manual_needed" = dbOne :=
  ⟨mark_skipped_overwrites.1 dbSent 1 "manual_needed" sentRow (by decide) rfl,
   mark_skipped_overwrites.2 dbOne 7 "manual_needed" (by decide)⟩

/-- C9 counterexample: `update_ai_response` does NOT fail with NotFound on an
absent id — the UPDATE matches no row and the call returns normally with
the store unchanged (the source has no id check and no failure path,
unlike `insert_or_touch_feedback`'s explicit RuntimeError). -/
theorem update_ai_response_absent_returns :
    update_ai_response dbEmpty 7 1 "resp" "model" "prompt" = dbEmpty := rfl

/-- C9 amended: `update_ai_response` sets the draft fields (response text,
model id, prompt), stamps the generation time, and transitions the
addressed row's status to 'ai_generated'; when the given feedback id is
absent it is a silent no-op (the store is returned unchanged) rather
than failing with NotFound. -/
theorem update_ai_response_spec :
    (∀ (db : DB) (now : Int) (fid : Nat) (resp model prompt : String) (r : Feedback),
      r ∈ db.feedbacks → r.id = fid →
      { r with
        ai_response := some resp
        ai_model := some model
        ai_prompt := some prompt
        ai_created_at := some now
        status := "ai_generated" }
        ∈ (update_ai_response db now fid resp model prompt).feedbacks) ∧
    (∀ (db : DB) (now : Int) (fid : Nat) (resp model prompt : String),
      (∀ r ∈ db.feedbacks, r.id ≠ fid) →
      update_ai_response db now fid resp model prompt = db) := by
  constructor
  · intro db now fid resp model prompt r hr hid
    have : ({ r with
        ai_response := some resp
        ai_model := some model
        ai_prompt := some prompt
        ai_created_at := some now
        status := "ai_generated" } : Feedback)
        = (fun r => if r.id == fid then
            { r with
              ai_response := some resp
              ai_model := some model
              ai_prompt := some prompt
              ai_created_at := some now
              status := "ai_generated" }
          else r) r := by
      simp [hid]
    rw [this]
    exact List.mem_map_of_mem _ hr
  · intro db now fid resp model prompt h
    have : db.feedbacks.map
        (fun r => if r.id == fid then
          { r with
            ai_response := some resp
            ai_model := some model
            ai_prompt := some prompt
            ai_created_at := some now
            status := "ai_generated" }
        else r) = db.feedbacks := by
      refine map_self_of _ _ ?_
      intro r hr
      rw [if_neg]
      simp [h r hr]
    unfold update_ai_response
    rw [this]

/-- Witness for the amended C9: recording a draft on the one `new` row of
`dbOne`, and the silent no-op on an absent id. -/
theorem update_ai_response_spec_witness :
    { newFb 1 (some 5) "t1" 1 with
      ai_response := some "R"
      ai_model := some "M"
      ai_prompt := some "P"
      ai_created_at := some (9 : Int)
      status := "ai_generated" }
      ∈ (update_ai_response dbOne 9 1 "R" "M" "P").feedbacks ∧
    update_ai_response dbOne 9 42 "R" "M" "P" = dbOne :=
  ⟨update_ai_response_spec.1 dbOne 9 1 "R" "M" "P" (newFb 1 (some 5) "t1" 1) (by decide) rfl,
   update_ai_response_spec.2 dbOne 9 42 "R" "M" "P" (by decide)⟩

theorem lookupKey_isSome (m : List (String × String)) (k : String) :
    (lookupKey m k).isSome = true ↔ k ∈ m.map Prod.fst := by
  induction m with
  | nil => simp [lookupKey]
  | cons p rest ih =>
    by_cases h : p.1 == k
    · simp only [lookupKey, List.find?_cons, h]
      rw [List.map_cons, List.mem_cons]
      constructor
      · intro
        exact Or.inl (beq_iff_eq.mp h).symm
      · intro
        simp
    · simp only [lookupKey, List.find?_cons, h]
      simp only [lookupKey] at ih
      rw [List.map_cons, List.mem_cons]
      constructor
      · intro hs
        exact Or.inr (ih.mp hs)
      · intro hm
        rcases hm with hm | hm
        · exact absurd (beq_iff_eq.mpr hm.symm) (by simpa using h)
        · exact ih.mpr hm

theorem pyFormat_hole_some (k v : String) (rest : List TemplatePart)
    (m : List (String × String)) (h : lookupKey m k = some v) :
    pyFormat (.hole k :: rest) m = Except.map (fun t => v ++ t) (pyFormat rest m) := by
  simp only [pyFormat, h]

theorem pyFormat_hole_none (k : String) (rest : List TemplatePart)
    (m : List (String × String)) (h : lookupKey m k = none) :
    pyFormat (.hole k :: rest) m = Except.error k := by
  simp only [pyFormat, h]

theorem except_map_ok_exists (f : String → String) (e : Except String String) :
    (∃ s, Except.map f e = .ok s) ↔ ∃ p, e = .ok p := by
  cases e <;> simp [Except.map]

theorem pyFormat_ok_iff (t : List TemplatePart) (m : List (String × String)) :
    (∃ s, pyFormat t m = .ok s) ↔ ∀ k ∈ holes t, k ∈ m.map Prod.fst := by
  induction t with
  | nil => simp [pyFormat, holes]
  | cons part rest ih =>
    cases part with
    | lit s =>
      show (∃ x, Except.map (fun t => s ++ t) (pyFormat rest m) = .ok x) ↔ _
      rw [except_map_ok_exists, ih]
      simp [holes]
    | hole k =>
      cases hlk : lookupKey m k with
      | none =>
        rw [pyFormat_hole_none k rest m hlk]
        have hk : ¬ k ∈ m.map Prod.fst := by
          rw [← lookupKey_isSome]
          simp [hlk]
        simp only [holes, List.mem_cons]
        constructor
        · rintro ⟨x, hx⟩
          exact absurd hx (by simp)
        · intro h
          exact absurd (h k (Or.inl rfl)) hk
      | some v =>
        rw [pyFormat_hole_some k v rest m hlk]
        have hk : k ∈ m.map Prod.fst := by
          rw [← lookupKey_isSome]
          simp [hlk]
        rw [except_map_ok_exists, ih]
        simp only [holes, List.mem_cons]
        constructor
        · intro h k' hk'
          rcases hk' with h' | h'
          · exact h' ▸ hk
          · exact h k' h'
        · intro h k' hk'
          exact h k' (Or.inr hk')

theorem string_data_append (a b : String) : (a ++ b).data = a.data ++ b.data := by
  cases a
  cases b
  rfl

theorem append_ne_empty_left (a b : String) (h : a ≠ "") : a ++ b ≠ "" := by
  intro hab
  apply h
  have hd := congrArg String.data hab
  rw [string_data_append] at hd
  have : a.data = [] := by
    cases hl : a.data with
    | nil => rfl
    | cons c cs => rw [hl] at hd; exact absurd hd (by simp)
  cases a
  simp only at this
  rw [this]

/-- The rendered examples block of a non-empty example list is non-empty
(it starts with the header line). -/
theorem renderExamples_ne_empty (e : RagExample) (es : List RagExample) :
    renderExamples (e :: es) ≠ "" := by
  show joinLines ("Примеры ответов (для стиля, не копировать дословно):" ::
      exampleLines 1 (e :: es)) ≠ ""
  simp only [exampleLines, joinLines]
  exact append_ne_empty_left _ _ (by decide)

theorem build_prompt_eq (t : List TemplatePart) (d : List (String × Option String))
    (e : List RagExample) :
    build_prompt t d e
      = match pyFormat t (d.map fun p => (p.1, p.2.getD "")) with
        | Except.error k => Except.error k
        | Except.ok prompt =>
          Except.ok (if renderExamples e = "" then prompt
            else prompt ++ "\n\n" ++ renderExamples e) := rfl

theorem build_prompt_ok_iff (t : List TemplatePart) (d : List (String × Option String))
    (e : List RagExample) :
    (∃ s, build_prompt t d e = .ok s)
      ↔ ∃ p, pyFormat t (d.map fun p => (p.1, p.2.getD "")) = .ok p := by
  rw [build_prompt_eq]
  cases hpf : pyFormat t (d.map fun p => (p.1, p.2.getD "")) <;> simp

/-- C8 counterexample: a placeholder whose key is missing from the payload
does not render as the empty string — `template.format(**safe)` raises
KeyError (modelled as `Except.error`), so `build_prompt` fails. -/
theorem build_prompt_missing_key_raises :
    build_prompt [.hole "foo"] [] [] = .error "foo" := rfl

/-- C8 amended: `build_prompt` substitutes named placeholders from the
payload and succeeds exactly when every placeholder key is present in
the payload (a missing key raises KeyError instead of rendering empty);
a None payload value renders as the empty string; and the formatted
examples block is appended exactly when examples were supplied. -/
theorem build_prompt_spec :
    (∀ (t : List TemplatePart) (d : List (String × Option String)) (e : List RagExample),
      (∃ s, build_prompt t d e = .ok s) ↔ ∀ k ∈ holes t, k ∈ d.map Prod.fst) ∧
    (∀ (t : List TemplatePart) (d : List (String × Option String))
        (e : List RagExample) (k : String),
      build_prompt t ((k, none) :: d) e = build_prompt t ((k, some "") :: d) e) ∧
    (∀ (t : List TemplatePart) (d : List (String × Option String)),
      build_prompt t d [] = pyFormat t (d.map fun p => (p.1, p.2.getD ""))) ∧
    (∀ (t : List TemplatePart) (d : List (String × Option String))
        (e : List RagExample) (s : String),
      e ≠ [] → build_prompt t d e = .ok s →
      ∃ p, pyFormat t (d.map fun p => (p.1, p.2.getD "")) = .ok p ∧
        s = p ++ "\n\n" ++ renderExamples e) := by
  refine ⟨?_, ?_, ?_, ?_⟩
  · intro t d e
    have hkeys : (d.map fun p => (p.1, p.2.getD "")).map Prod.fst = d.map Prod.fst := by
      rw [List.map_map]
      rfl
    rw [build_prompt_ok_iff, pyFormat_ok_iff, hkeys]
  · intro t d e k
    rfl
  · intro t d
    rw [build_prompt_eq]
    cases hpf : pyFormat t (d.map fun p => (p.1, p.2.getD "")) <;> simp [renderExamples]
  · intro t d e s hne hok
    rw [build_prompt_eq] at hok
    cases hpf : pyFormat t (d.map fun p => (p.1, p.2.getD "")) with
    | error k =>
      rw [hpf] at hok
      exact absurd hok (by simp)
    | ok p =>
      rw [hpf] at hok
      simp only [Except.ok.injEq] at hok
      refine ⟨p, rfl, ?_⟩
      cases e with
      | nil => exact absurd rfl hne
      | cons e₀ es =>
        rw [if_neg (renderExamples_ne_empty e₀ es)] at hok
        exact hok.symm

/-- Witness for the amended C8: a template whose only placeholder is present
formats successfully. -/
theorem build_prompt_spec_witness :
    ∃ s, build_prompt [.lit "Q: ", .hole "text"] [("text", some "hello")] [] = .ok s :=
  (build_prompt_spec.1 [.lit "Q: ", .hole "text"] [("text", some "hello")] []).mpr
    (by decide)

/-- C5: `get_rag_examples` returns at most `limit` examples: the full table
sorted by the three-key priority — product-name match first, then rating
match, then creation time most recent first, then id (insertion order)
most recent first, as encoded by `rankKey`/`rankGe` — truncated to
`limit`.  The sorted sequence is a permutation of the whole table (exact
matching only, graceful recency fallback when nothing matches), and on
the spec's test data the query (product "X", rating 5) yields
[E1, E2, E3], while a query matching nothing yields pure recency order
[E3, E2]. -/
theorem get_rag_examples_ranking :
    (∀ (db : DB) (q : String) (qr : Option Int) (lim : Nat),
      get_rag_examples db q qr lim
        = (List.insertionSort (rankGe q qr) db.rag_examples).take lim ∧
      (List.insertionSort (rankGe q qr) db.rag_examples).Perm db.rag_examples ∧
      List.Pairwise (rankGe q qr) (List.insertionSort (rankGe q qr) db.rag_examples) ∧
      (get_rag_examples db q qr lim).length = min lim db.rag_examples.length) ∧
    (get_rag_examples ragDb "X" (some 5) 6).map (·.id) = [1, 2, 3] ∧
    (get_rag_examples ragDb "Z" (some 2) 2).map (·.id) = [3, 2] := by
  refine ⟨?_, by decide, by decide⟩
  intro db q qr lim
  refine ⟨rfl, List.perm_insertionSort _ _, List.sorted_insertionSort _ _, ?_⟩
  unfold get_rag_examples
  rw [List.length_take, (List.perm_insertionSort (rankGe q qr) db.rag_examples).length_eq]

theorem filter_eq_nil_of {α : Type} (p : α → Bool) (l : List α)
    (h : ∀ a ∈ l, p a = false) : l.filter p = [] := by
  induction l with
  | nil => rfl
  | cons a as ih =>
    rw [List.filter_cons, if_neg (by simp [h a (List.mem_cons_self a as)])]
    exact ih fun x hx => h x (List.mem_cons_of_mem a hx)

theorem find?_none_of {α : Type} (p : α → Bool) (l : List α)
    (h : ∀ a ∈ l, p a = false) : l.find? p = none := by
  induction l with
  | nil => rfl
  | cons a as ih =>
    rw [List.find?_cons, h a (List.mem_cons_self a as)]
    exact ih fun x hx => h x (List.mem_cons_of_mem a hx)

theorem find?_append_of_none {α : Type} (p : α → Bool) (l₁ l₂ : List α)
    (h : ∀ a ∈ l₁, p a = false) : (l₁ ++ l₂).find? p = l₂.find? p := by
  induction l₁ with
  | nil => rfl
  | cons a as ih =>
    rw [List.cons_append, List.find?_cons, h a (List.mem_cons_self a as)]
    exact ih fun x hx => h x (List.mem_cons_of_mem a hx)

theorem any_eq_false_of {α : Type} (p : α → Bool) (l : List α)
    (h : ∀ a ∈ l, p a = false) : l.any p = false := by
  induction l with
  | nil => rfl
  | cons a as ih =>
    rw [List.any_cons, h a (List.mem_cons_self a as)]
    simpa using ih fun x hx => h x (List.mem_cons_of_mem a hx)

theorem any_append_right {α : Type} (p : α → Bool) (l₁ l₂ : List α)
    (h : l₂.any p = true) : (l₁ ++ l₂).any p = true := by
  induction l₁ with
  | nil => exact h
  | cons a as ih =>
    rw [List.cons_append, List.any_cons, ih]
    simp

/-- `touchRow` changes neither the key fields nor the status nor the id. -/
theorem touchRow_fields (now : Int) (r : Feedback) :
    (touchRow now r).id = r.id ∧ (touchRow now r).status = r.status ∧
    (touchRow now r).marketplace_id = r.marketplace_id ∧
    (touchRow now r).external_id = r.external_id :=
  ⟨rfl, rfl, rfl, rfl⟩

/-- The conflict key inspects only the content fields, not `last_seen_at`. -/
theorem feedbackKeyMatches_touch (mid : Nat) (eid : String) (r : Feedback) (n : Int) :
    feedbackKeyMatches mid eid (touchRow n r) = feedbackKeyMatches mid eid r := rfl

/-- The freshly inserted row matches its own conflict key. -/
theorem feedbackKeyMatches_freshRow (rid : Nat) (now : Int) (d : FeedbackData) :
    feedbackKeyMatches d.marketplace_id d.external_id (freshRow rid now d) = true := by
  simp [feedbackKeyMatches, freshRow]

/-- The conflict branch of the upsert. -/
theorem insert_or_touch_conflict (db : DB) (now : Int) (d : FeedbackData)
    (h : db.feedbacks.any (feedbackKeyMatches d.marketplace_id d.external_id) = true) :
    insert_or_touch_feedback db now d
      = ({ db with feedbacks := db.feedbacks.map fun r =>
            if feedbackKeyMatches d.marketplace_id d.external_id r then
              touchRow now r else r },
         (db.feedbacks.map fun r =>
            if feedbackKeyMatches d.marketplace_id d.external_id r then
              touchRow now r else r).find?
           (feedbackKeyMatches d.marketplace_id d.external_id)) := by
  simp only [insert_or_touch_feedback]
  rw [h]
  rfl

/-- The insert branch of the upsert. -/
theorem insert_or_touch_fresh (db : DB) (now : Int) (d : FeedbackData)
    (h : db.feedbacks.any (feedbackKeyMatches d.marketplace_id d.external_id) = false) :
    insert_or_touch_feedback db now d
      = ({ db with
           feedbacks := db.feedbacks ++ [freshRow db.next_feedback_id now d],
           next_feedback_id := db.next_feedback_id + 1 },
         (db.feedbacks ++ [freshRow db.next_feedback_id now d]).find?
           (feedbackKeyMatches d.marketplace_id d.external_id)) := by
  simp only [insert_or_touch_feedback]
  rw [h]
  rfl

/-- C1: upserting the same (marketplace_id, external_id) twice with
different field values leaves exactly one stored row, whose
content-bearing fields and status are the first call's values
(`freshRow` of the first payload) and whose `last_seen_at` is the second
call's time (the second call also returns that row); and whenever the
key already exists, the upsert rewrites the table by refreshing
`last_seen_at` of the matching row only — the id and status of every
row are unchanged, so a status that has left 'new' is never reset. -/
theorem upsert_idempotent :
    (∀ (db : DB) (n₁ n₂ : Int) (d₁ d₂ : FeedbackData),
      d₂.marketplace_id = d₁.marketplace_id →
      d₂.external_id = d₁.external_id →
      (∀ r ∈ db.feedbacks,
        feedbackKeyMatches d₁.marketplace_id d₁.external_id r = false) →
      ((insert_or_touch_feedback (insert_or_touch_feedback db n₁ d₁).1 n₂ d₂).1.feedbacks.filter
          (feedbackKeyMatches d₁.marketplace_id d₁.external_id)
        = [touchRow n₂ (freshRow db.next_feedback_id n₁ d₁)]) ∧
      (insert_or_touch_feedback (insert_or_touch_feedback db n₁ d₁).1 n₂ d₂).2
        = some (touchRow n₂ (freshRow db.next_feedback_id n₁ d₁))) ∧
    (∀ (db : DB) (now : Int) (d : FeedbackData),
      db.feedbacks.any (feedbackKeyMatches d.marketplace_id d.external_id) = true →
      (insert_or_touch_feedback db now d).1.feedbacks
        = db.feedbacks.map (fun r =>
            if feedbackKeyMatches d.marketplace_id d.external_id r then
              touchRow now r else r) ∧
      ((insert_or_touch_feedback db now d).1.feedbacks.map fun r => (r.id, r.status))
        = db.feedbacks.map fun r => (r.id, r.status)) := by
  constructor
  · intro db n₁ n₂ d₁ d₂ hm he h
    have hk2 : feedbackKeyMatches d₂.marketplace_id d₂.external_id
        = feedbackKeyMatches d₁.marketplace_id d₁.external_id := by
      rw [hm, he]
    have hany : db.feedbacks.any
        (feedbackKeyMatches d₁.marketplace_id d₁.external_id) = false :=
      any_eq_false_of _ _ h
    have hfb1 : (insert_or_touch_feedback db n₁ d₁).1.feedbacks
        = db.feedbacks ++ [freshRow db.next_feedback_id n₁ d₁] := by
      rw [insert_or_touch_fresh db n₁ d₁ hany]
    have hany2 : ((insert_or_touch_feedback db n₁ d₁).1.feedbacks).any
        (feedbackKeyMatches d₁.marketplace_id d₁.external_id) = true := by
      rw [hfb1]
      refine any_append_right _ _ _ ?_
      rw [List.any_cons, feedbackKeyMatches_freshRow]
      rfl
    have hany2' : ((insert_or_touch_feedback db n₁ d₁).1.feedbacks).any
        (feedbackKeyMatches d₂.marketplace_id d₂.external_id) = true := by
      rw [hk2]
      exact hany2
    have hfb2 : (insert_or_touch_feedback (insert_or_touch_feedback db n₁ d₁).1 n₂ d₂).1.feedbacks
        = ((insert_or_touch_feedback db n₁ d₁).1.feedbacks).map (fun r =>
            if feedbackKeyMatches d₁.marketplace_id d₁.external_id r then
              touchRow n₂ r else r) := by
      rw [insert_or_touch_conflict _ n₂ d₂ hany2']
      rw [hk2]
    have hfind2 : (insert_or_touch_feedback (insert_or_touch_feedback db n₁ d₁).1 n₂ d₂).2
        = (((insert_or_touch_feedback db n₁ d₁).1.feedbacks).map (fun r =>
            if feedbackKeyMatches d₁.marketplace_id d₁.external_id r then
              touchRow n₂ r else r)).find?
          (feedbackKeyMatches d₁.marketplace_id d₁.external_id) := by
      rw [insert_or_touch_conflict _ n₂ d₂ hany2']
      rw [hk2]
    have huntouched : (db.feedbacks.map (fun r =>
        if feedbackKeyMatches d₁.marketplace_id d₁.external_id r then
          touchRow n₂ r else r)) = db.feedbacks :=
      map_self_of _ _ (fun r hr => if_neg (by simp [h r hr]))
    have hkeyTouched : feedbackKeyMatches d₁.marketplace_id d₁.external_id
        (touchRow n₂ (freshRow db.next_feedback_id n₁ d₁)) = true := by
      rw [feedbackKeyMatches_touch, feedbackKeyMatches_freshRow]
    constructor
    · rw [hfb2, hfb1, List.map_append, huntouched, List.filter_append,
        filter_eq_nil_of _ _ h]
      rw [List.map_cons, List.map_nil,
        if_pos (feedbackKeyMatches_freshRow db.next_feedback_id n₁ d₁)]
      rw [List.nil_append, List.filter_cons, if_pos hkeyTouched]
      rfl
    · rw [hfind2, hfb1, List.map_append, huntouched]
      rw [find?_append_of_none _ _ _ h]
      rw [List.map_cons, List.map_nil,
        if_pos (feedbackKeyMatches_freshRow db.next_feedback_id n₁ d₁)]
      rw [List.find?_cons, hkeyTouched]
  · intro db now d hc
    have h1 : (insert_or_touch_feedback db now d).1.feedbacks
        = db.feedbacks.map (fun r =>
            if feedbackKeyMatches d.marketplace_id d.external_id r then
              touchRow now r else r) := by
      rw [insert_or_touch_conflict db now d hc]
    refine ⟨h1, ?_⟩
    rw [h1, List.map_map]
    refine List.map_congr_left ?_
    intro r hr
    by_cases hkr : feedbackKeyMatches d.marketplace_id d.external_id r = true
    · simp [hkr, touchRow]
    · simp [hkr]

/-- Witness for C1 at a concrete store: upserting fresh data then
re-upserting the same key with different content leaves exactly the
first-call row stamped with the second time, and the conflict branch is
exercised on `dbSent` without altering the 'sent' status. -/
theorem upsert_idempotent_witness :
    ((insert_or_touch_feedback (insert_or_touch_feedback dbEmpty 10 exampleData1).1 20 exampleData2).1.feedbacks.filter
        (feedbackKeyMatches 1 "x")
      = [touchRow 20 (freshRow 1 10 exampleData1)]) ∧
    ((insert_or_touch_feedback dbSent 33 sentData).1.feedbacks.map fun r => (r.id, r.status))
      = [(1, "sent")] := by
  constructor
  · exact (upsert_idempotent.1 dbEmpty 10 20 exampleData1 exampleData2 rfl rfl
      (by decide)).1
  · have h := (upsert_idempotent.2 dbSent 33 sentData (by decide)).2
    rw [h]
    decide

/-- C2: in one account's loop over the 'new' rows, a generation failure on
one item marks that item 'ai_error' and processing continues: for the
batch of 3 new items where only item 2's generation call fails, items 1
and 3 end in 'ai_generated' (with their drafts recorded) and item 2
ends in 'ai_error', and the loop completes. -/
theorem generation_failure_isolated :
    ((process_ai ctxGenFail 1 true "WB" dbBatch3).feedbacks.map
        fun r => (r.id, r.status, r.ai_response))
      = [(1, "ai_generated", some "ANS"), (2, "ai_error", none),
         (3, "ai_generated", some "ANS")] := by decide

theorem sentPreserved_refl (db : DB) : sentPreserved db db :=
  fun r' h hs => ⟨r', h, rfl, hs⟩

theorem sentPreserved_trans {a b c : DB} (h₁ : sentPreserved a b)
    (h₂ : sentPreserved b c) : sentPreserved a c := by
  intro r' hr' hs
  obtain ⟨r, hr, hid, hsent⟩ := h₂ r' hr' hs
  obtain ⟨r₀, hr₀, hid₀, hs₀⟩ := h₁ r hr hsent
  exact ⟨r₀, hr₀, hid₀.trans hid, hs₀⟩

/-- A row-wise table rewrite whose function either fixes a row or moves it
to a non-'sent' status never creates a dispatched row. -/
theorem sentPreserved_map (db : DB) (g : Feedback → Feedback)
    (hg : ∀ r, g r = r ∨ ((g r).id = r.id ∧ (g r).status ≠ "sent")) :
    sentPreserved db { db with feedbacks := db.feedbacks.map g } := by
  intro r' hr' hs
  obtain ⟨r, hr, hgr⟩ := List.mem_map.mp hr'
  rcases hg r with h | ⟨hid, hstat⟩
  · have heq : r = r' := h.symm.trans hgr
    exact ⟨r, hr, by rw [heq], by rw [heq]; exact hs⟩
  · rw [← hgr] at hs
    exact absurd hs hstat

theorem sentPreserved_mark_skipped (db : DB) (fid : Nat) (tag : String)
    (h : tag ≠ "sent") : sentPreserved db (mark_skipped db fid tag) := by
  show sentPreserved db { db with feedbacks := db.feedbacks.map fun r =>
    if r.id == fid then { r with status := tag } else r }
  refine sentPreserved_map db _ ?_
  intro r
  by_cases hid : r.id == fid
  · right
    rw [if_pos hid]
    exact ⟨rfl, h⟩
  · left
    rw [if_neg hid]

theorem sentPreserved_update_ai (db : DB) (now : Int) (fid : Nat)
    (resp model prompt : String) :
    sentPreserved db (update_ai_response db now fid resp model prompt) := by
  show sentPreserved db { db with feedbacks := db.feedbacks.map fun r =>
    if r.id == fid then
      { r with
        ai_response := some resp
        ai_model := some model
        ai_prompt := some prompt
        ai_created_at := some now
        status := "ai_generated" }
    else r }
  refine sentPreserved_map db _ ?_
  intro r
  by_cases hid : r.id == fid
  · right
    rw [if_pos hid]
    exact ⟨rfl, show ("ai_generated" : String) ≠ "sent" by decide⟩
  · left
    rw [if_neg hid]

/-- With auto-reply disabled, one item-loop iteration never dispatches:
every branch is a skip marking or a draft recording. -/
theorem sentPreserved_process_row (ctx : GenCtx) (tpl : List TemplatePart)
    (label : String) (mid : Nat) (db : DB) (row : Feedback) :
    sentPreserved db (process_row ctx tpl false label mid db row) := by
  simp only [process_row]
  split
  · exact sentPreserved_mark_skipped db row.id "manual_needed"
      (show ("manual_needed" : String) ≠ "sent" by decide)
  split
  · exact sentPreserved_mark_skipped db row.id "ai_skipped_no_key"
      (show ("ai_skipped_no_key" : String) ≠ "sent" by decide)
  split
  · exact sentPreserved_mark_skipped db row.id "ai_error"
      (show ("ai_error" : String) ≠ "sent" by decide)
  split
  · exact sentPreserved_mark_skipped db row.id "ai_error"
      (show ("ai_error" : String) ≠ "sent" by decide)
  split
  · rw [if_neg (show ¬(("manual_confirm" : String) = "auto_send") by decide)]
    exact sentPreserved_update_ai db ctx.now row.id _ ctx.openai_model _
  · rename_i hmode
    rw [if_neg (fun hm => hmode ⟨hm, by decide⟩)]
    exact sentPreserved_update_ai db ctx.now row.id _ ctx.openai_model _

theorem sentPreserved_foldl (ctx : GenCtx) (tpl : List TemplatePart)
    (label : String) (mid : Nat) :
    ∀ (rows : List Feedback) (db : DB),
      sentPreserved db (rows.foldl (process_row ctx tpl false label mid) db)
  | [], db => sentPreserved_refl db
  | r :: rows, db => by
    rw [List.foldl_cons]
    exact sentPreserved_trans
      (sentPreserved_process_row ctx tpl label mid db r)
      (sentPreserved_foldl ctx tpl label mid rows _)

theorem ensure_prompt_feedbacks (db : DB) (tpl : List TemplatePart) :
    (ensure_prompt db tpl).1.feedbacks = db.feedbacks := by
  unfold ensure_prompt
  split <;> rfl

theorem sentPreserved_of_eq_feedbacks {db db' : DB}
    (h : db'.feedbacks = db.feedbacks) (x : DB) :
    sentPreserved db' x → sentPreserved db x := by
  intro hp r' hr' hs
  obtain ⟨r, hr, hid, hsent⟩ := hp r' hr' hs
  exact ⟨r, h ▸ hr, hid, hsent⟩

/-- C4: with the account's auto-reply flag disabled, an autoSend-rated item
is downgraded before drafting — the whole AI pass never dispatches
(no row becomes 'sent' that was not already 'sent'), while the concrete
rating-5 item with a working send capability still gets its draft
recorded, ending in 'ai_generated' with no sent timestamp. -/
theorem auto_reply_downgrade :
    (∀ (ctx : GenCtx) (mid : Nat) (label : String) (db : DB),
      ∀ r' ∈ (process_ai ctx mid false label db).feedbacks, r'.status = "sent" →
        ∃ r ∈ db.feedbacks, r.id = r'.id ∧ r.status = "sent") ∧
    ((process_ai ctxSendOk 1 false "WB" dbOne).feedbacks.map
        fun r => (r.status, r.ai_response, r.sent_at))
      = [("ai_generated", some "ANS", none)] := by
  constructor
  · intro ctx mid label db
    show sentPreserved db (process_ai ctx mid false label db)
    simp only [process_ai]
    exact sentPreserved_of_eq_feedbacks (ensure_prompt_feedbacks db ctx.prompt_template) _
      (sentPreserved_foldl ctx (ensure_prompt db ctx.prompt_template).2 label mid
        (get_new_feedbacks (ensure_prompt db ctx.prompt_template).1 mid)
        (ensure_prompt db ctx.prompt_template).1)
  · decide

/-- Witness for C4: on `dbSent` (whose only row is already 'sent') the
no-new-dispatch part of the theorem recovers the pre-existing row. -/
theorem auto_reply_downgrade_witness :
    ∃ r ∈ dbSent.feedbacks, r.id = sentRow.id ∧ r.status = "sent" :=
  auto_reply_downgrade.1 ctxSendOk 1 "WB" dbSent sentRow (by decide) (by decide)

/-- C6: for an autoSend item (rating at least 4, auto-reply enabled, key
configured) whose generation succeeds but whose dispatch fails, the
item-loop iteration is exactly the draft recording: the row ends in
status 'ai_generated' with the drafted text, nothing is reverted, no row
is marked 'sent', and the send is attempted only once (the iteration
equals `update_ai_response`, which contains no further send). -/
theorem send_failure_leaves_draft
    (ctx : GenCtx) (tpl : List TemplatePart) (label : String) (mid : Nat)
    (db : DB) (row : Feedback) (n : Int) (key prompt answer err : String)
    (hr : row.rating = some n) (hn : 4 ≤ n)
    (hk : ctx.openai_api_key = some key)
    (hb : build_prompt tpl (mkPayload db mid label row)
      (get_rag_examples db (orEmpty row.product_name) row.rating 6) = .ok prompt)
    (hg : ctx.gen prompt = .ok answer)
    (hs : ctx.send row.external_id answer = .error err) :
    process_row ctx tpl true label mid db row
      = update_ai_response db ctx.now row.id answer ctx.openai_model prompt := by
  have hmode : reply_mode (Rating.ofDb row.rating) = "auto_send" := by
    rw [hr]
    show reply_mode (.num n) = "auto_send"
    simp only [reply_mode]
    rw [if_pos (by omega)]
  simp only [process_row, hmode]
  rw [if_neg (show ¬(True ∧ ¬True) by simp)]
  split
  · simp_all
  split
  · simp_all
  split
  · simp_all
  rename_i prompt' heq2
  have hp : prompt = prompt' := Except.ok.inj (hb.symm.trans heq2)
  subst hp
  split
  · simp_all
  rename_i ans heq3
  have ha : answer = ans := Except.ok.inj (hg.symm.trans heq3)
  subst ha
  rw [if_pos (show ("auto_send" : String) = "auto_send" from rfl)]
  split
  · rename_i ack heq4
    rw [hs] at heq4
    exact absurd heq4 (by simp)
  · rfl

/-- Witness for C6: the concrete rating-5 item with a failing dispatch ends
exactly as the recorded draft. -/
theorem send_failure_leaves_draft_witness :
    process_row ctxSendFail [.hole "text"] true "WB" 1 dbOne (newFb 1 (some 5) "t1" 1)
      = update_ai_response dbOne 100 1 "ANS" "m" "t1" :=
  send_failure_leaves_draft ctxSendFail [.hole "text"] "WB" 1 dbOne
    (newFb 1 (some 5) "t1" 1) 5 "k" "t1" "ANS" "http 500"
    rfl (by decide) rfl rfl rfl rfl

theorem run_accounts_covers (poll : Account → DB → DB × Option String) :
    ∀ (accounts : List Account) (db : DB),
      ((run_accounts poll accounts db).2).map Prod.fst = accounts.map (·.id)
  | [], _ => rfl
  | a :: rest, db => by
    simp only [run_accounts, List.map_cons]
    rw [run_accounts_covers poll rest]

theorem run_pass_covers (pollWb pollYm : Account → DB → DB × Option String)
    (wb ym : List Account) (db : DB) :
    ((run_pass pollWb pollYm wb ym db).2).map Prod.fst
      = wb.map (·.id) ++ ym.map (·.id) := by
  simp only [run_pass]
  rw [List.map_append, run_accounts_covers, run_accounts_covers]

theorem run_passes_spec (pollWb pollYm : Account → DB → DB × Option String)
    (wb ym : List Account) :
    ∀ (n : Nat) (db : DB),
      ((run_passes pollWb pollYm wb ym n db).2).length = n ∧
      ∀ o ∈ (run_passes pollWb pollYm wb ym n db).2,
        o.map Prod.fst = wb.map (·.id) ++ ym.map (·.id)
  | 0, db => ⟨rfl, by intro o ho; exact absurd ho (by simp [run_passes])⟩
  | n + 1, db => by
    simp only [run_passes]
    constructor
    · simp only [List.length_cons]
      rw [(run_passes_spec pollWb pollYm wb ym n _).1]
    · intro o ho
      rcases List.mem_cons.mp ho with h | h
      · rw [h]
        exact run_pass_covers pollWb pollYm wb ym db
      · exact (run_passes_spec pollWb pollYm wb ym n _).2 o h

/-- C7: in one polling pass every active account is attempted exactly once,
in order, regardless of which accounts fail (the per-account outcome
list covers WB then YM accounts); every one of `n` consecutive passes
runs and covers all accounts; and concretely, when account 2 of three
fails mid-poll, accounts 1 and 3 still complete and even the failing
account's partial store effect survives (all three items ingested). -/
theorem account_failure_isolated :
    (∀ (pollWb pollYm : Account → DB → DB × Option String) (wb ym : List Account)
        (db : DB),
      ((run_pass pollWb pollYm wb ym db).2).map Prod.fst
        = wb.map (·.id) ++ ym.map (·.id)) ∧
    (∀ (pollWb pollYm : Account → DB → DB × Option String) (wb ym : List Account)
        (n : Nat) (db : DB),
      ((run_passes pollWb pollYm wb ym n db).2).length = n ∧
      ∀ o ∈ (run_passes pollWb pollYm wb ym n db).2,
        o.map Prod.fst = wb.map (·.id) ++ ym.map (·.id)) ∧
    (run_accounts pollBoom [acct 1, acct 2, acct 3] dbEmpty).2
      = [(1, none), (2, some "boom"), (3, none)] ∧
    ((run_accounts pollBoom [acct 1, acct 2, acct 3] dbEmpty).1.feedbacks.map
      (·.marketplace_id)) = [1, 2, 3] := by
  refine ⟨?_, ?_, by decide, by decide⟩
  · intro pollWb pollYm wb ym db
    exact run_pass_covers pollWb pollYm wb ym db
  · intro pollWb pollYm wb ym n db
    exact run_passes_spec pollWb pollYm wb ym n db

/-- Witness for C7: the single pass over one account (whose poll succeeds)
yields the covering outcome list. -/
theorem account_failure_isolated_witness :
    ([((1 : Nat), (none : Option String))] : List (Nat × Option String)).map Prod.fst
      = [acct 1].map (·.id) ++ ([] : List Account).map (·.id) :=
  (account_failure_isolated.2.1 pollBoom pollBoom [acct 1] [] 1 dbEmpty).2
    [(1, none)] (by decide)

end WbReview
